import Mathlib

/-!
A shallow embedding of the persistence layer of `src/vetCheckinSystem.py`
(the `Animal` dataclass and the `VeterinaryDatabase` class), together with
proofs of the behavioural claims about it.

Modelling conventions:
* Python strings are `String`, Python ints are `Int` (ids, which SQLite
  assigns as positive rowids, are `Nat`).
* The `checkups` table is a list of rows in insertion order plus the
  AUTOINCREMENT sequence value (the largest id ever assigned; SQLite
  assigns `seq + 1` to the next insert and never reuses ids).
* Storage failures and the exception flow of `_get_connection` are made
  explicit through a `StorageFault` parameter saying where, if anywhere,
  `sqlite3` raises during one operation call.
-/

namespace VetCheckin

/-- Python truthiness of a string: truthy iff non-empty. -/
def truthyStr (s : String) : Bool := s ≠ ""

/-- Python truthiness of an int: truthy iff non-zero. -/
def truthyInt (n : Int) : Bool := n ≠ 0

/-- The `Animal` dataclass (`src/vetCheckinSystem.py` lines 16-37):
species, name, owner, age, checkup_reason, and an optional id that is
`None` until the store assigns one. -/
structure Animal where
  species : String
  name : String
  owner : String
  age : Int
  checkup_reason : String
  id : Option Nat := none
deriving Repr, DecidableEq

/-- Model of `Animal.validate` (lines 39-53): Python
`all([self.species, self.name, self.owner, self.age, self.checkup_reason])`,
i.e. every one of the five data fields is truthy; the `id` field is not
inspected. Returns `false` (after logging a warning) when any field is
falsy, `true` otherwise; no exception is raised. -/
def Animal.validate (a : Animal) : Bool :=
  truthyStr a.species && truthyStr a.name && truthyStr a.owner &&
    truthyInt a.age && truthyStr a.checkup_reason

/-- One row of the `checkups` table (schema at lines 117-126): the five
data columns plus the `INTEGER PRIMARY KEY AUTOINCREMENT` id. -/
structure Row where
  id : Nat
  species : String
  name : String
  owner : String
  age : Int
  checkup_reason : String
deriving Repr, DecidableEq

/-- The state of the `checkups` table: its rows in insertion order and the
AUTOINCREMENT sequence `seq` (largest id ever assigned; a fresh table has
`seq = 0`, so the first insert gets id 1). -/
structure DBState where
  rows : List Row
  seq : Nat
deriving Repr, DecidableEq

/-- Invariant maintained by the `id INTEGER PRIMARY KEY AUTOINCREMENT`
column: every id is positive, no id exceeds the sequence value, and ids are
pairwise distinct. -/
def DBState.wf (db : DBState) : Prop :=
  (∀ r ∈ db.rows, 1 ≤ r.id ∧ r.id ≤ db.seq) ∧
    db.rows.Pairwise (fun r s => r.id ≠ s.id)

/-- Model of `_create_table` (lines 105-131): `CREATE TABLE IF NOT EXISTS checkups`.
`none` is the ABSENT table; creating it yields an empty table with
sequence 0; when the table already EXISTS the statement is a no-op. -/
def create_table : Option DBState → Option DBState
  | some db => some db
  | none => some { rows := [], seq := 0 }

/-- The row written by the INSERT at lines 154-157: every `Animal` field
except `id`, which SQLite assigns as `seq + 1` (`cursor.lastrowid`). -/
def insertRow (a : Animal) (db : DBState) : Row :=
  { id := db.seq + 1, species := a.species, name := a.name, owner := a.owner,
    age := a.age, checkup_reason := a.checkup_reason }

/-- Success path of `add_animal` after validation (lines 149-162): insert
the five data fields, commit, set `animal.id = cursor.lastrowid`, and
return that id. Result: (returned id, updated animal) and updated table. -/
def add_body (a : Animal) (db : DBState) : (Option Nat × Animal) × DBState :=
  ((some (db.seq + 1), { a with id := some (db.seq + 1) }),
    { rows := db.rows ++ [insertRow a db], seq := db.seq + 1 })

/-- Model of `add_animal` (lines 133-165), fault-free semantics: validate first
(line 146) and return `None` with the table untouched when invalid,
otherwise run the insert. -/
def add_animal (db : DBState) (a : Animal) : (Option Nat × Animal) × DBState :=
  if a.validate then add_body a db else ((none, a), db)

/-- Model of `get_animal_info` (lines 167-198), fault-free semantics:
`SELECT * FROM checkups WHERE id = ?` then `fetchone`, returning the six
columns of the first matching row (the dict built at lines 187-194 carries
exactly the fields of `Row`), or `None` when no row matches. -/
def get_animal_info (db : DBState) (animal_id : Nat) : Option Row :=
  db.rows.find? (fun r => r.id == animal_id)

/-- Model of `discharge_animal` (lines 200-227), fault-free semantics:
`DELETE FROM checkups WHERE id = ?`, commit, then return
`cursor.rowcount > 0`, i.e. whether the row list shrank. -/
def discharge_animal (db : DBState) (animal_id : Nat) : Bool × DBState :=
  let remaining := db.rows.filter (fun r => r.id != animal_id)
  (decide (remaining.length < db.rows.length), { db with rows := remaining })

/-- Where, if anywhere, `sqlite3` raises during one operation call:
`openFault` means `sqlite3.connect` itself raises `sqlite3.Error` inside
`_get_connection` (line 95); `bodyFault` means a `sqlite3.Error` is raised
by the SQL statements after the connection was opened. -/
inductive StorageFault
  | noFault
  | openFault
  | bodyFault
deriving Repr, DecidableEq

/-- A Python exception escaping an operation. `sqliteError` models
`sqlite3.Error`. `unboundLocalError` models the `UnboundLocalError` raised
when the `finally` block of `_get_connection` (line 103) evaluates
`conn.close()` while the local `conn` was never bound because
`sqlite3.connect` itself raised; that exception replaces the re-raised
`sqlite3.Error` in flight. -/
inductive PyExc
  | sqliteError
  | unboundLocalError
deriving Repr, DecidableEq

/-- Connections opened and closed during one operation call. -/
structure ConnTrace where
  opened : Nat
  closed : Nat
deriving Repr, DecidableEq

/-- Model of `with self._get_connection() as conn:` (lines 79-103) running a body.
On `openFault`: `connect` raises, the `except` clause re-raises, and the
`finally` clause raises `UnboundLocalError` from `conn.close()` on the
unbound local, which is what propagates; no connection was opened.
On `bodyFault`: the error thrown into the generator at the `yield` is
logged and re-raised, and the `finally` clause closes the opened
connection; the uncommitted transaction is rolled back, leaving the table
unchanged. On `noFault` the body runs and the connection is closed. -/
def with_connection {α : Type} (f : StorageFault) (db : DBState)
    (body : DBState → α × DBState) : Except PyExc α × DBState × ConnTrace :=
  match f with
  | .openFault => (Except.error PyExc.unboundLocalError, db, ⟨0, 0⟩)
  | .bodyFault => (Except.error PyExc.sqliteError, db, ⟨1, 1⟩)
  | .noFault => ((fun p => (Except.ok p.1, p.2, ⟨1, 1⟩)) (body db))

/-- An operation-level `except sqlite3.Error` handler (lines 163-165,
196-198, 225-227): converts `sqlite3.Error` to the sentinel return value;
any other exception keeps propagating. -/
def catch_sqlite {α : Type} (sentinel : α) : Except PyExc α → Except PyExc α
  | Except.error PyExc.sqliteError => Except.ok sentinel
  | r => r

/-- Model of `add_animal` with the storage-fault model: validation happens before
any connection is opened (line 146); the sentinel on `sqlite3.Error` is
`None` with the animal unmodified. -/
def add_animal_run (f : StorageFault) (db : DBState) (a : Animal) :
    Except PyExc (Option Nat × Animal) × DBState × ConnTrace :=
  if a.validate then
    (fun t => (catch_sqlite (none, a) t.1, t.2)) (with_connection f db (add_body a))
  else (Except.ok (none, a), db, ⟨0, 0⟩)

/-- Model of `get_animal_info` with the storage-fault model; the sentinel on
`sqlite3.Error` is `None`. -/
def get_animal_info_run (f : StorageFault) (db : DBState) (animal_id : Nat) :
    Except PyExc (Option Row) × DBState × ConnTrace :=
  (fun t => (catch_sqlite none t.1, t.2))
    (with_connection f db (fun d => (get_animal_info d animal_id, d)))

/-- Model of `discharge_animal` with the storage-fault model; the sentinel on
`sqlite3.Error` is `False`. -/
def discharge_animal_run (f : StorageFault) (db : DBState) (animal_id : Nat) :
    Except PyExc Bool × DBState × ConnTrace :=
  (fun t => (catch_sqlite false t.1, t.2))
    (with_connection f db (fun d => discharge_animal d animal_id))

/-- Model of `_create_table` with the storage-fault model (lines 112-131): its
`except sqlite3.Error` clause logs and re-raises, so every storage failure
propagates to the caller (and on `openFault` what propagates is the
`UnboundLocalError` from `_get_connection`). -/
def create_table_run (f : StorageFault) (t : Option DBState) :
    Except PyExc (Option DBState) × ConnTrace :=
  match f with
  | .openFault => (Except.error PyExc.unboundLocalError, ⟨0, 0⟩)
  | .bodyFault => (Except.error PyExc.sqliteError, ⟨1, 1⟩)
  | .noFault => (Except.ok (create_table t), ⟨1, 1⟩)

/-- Concrete animal used to exercise the operations (the round-trip example
of the specification). -/
def rex : Animal :=
  { species := "Dog", name := "Rex", owner := "Ana", age := 4,
    checkup_reason := "vaccination" }

/-- A fresh, empty table. -/
def freshDB : DBState := { rows := [], seq := 0 }

/-- An animal with an empty name: `validate` fails on it. -/
def blankName : Animal :=
  { species := "Cat", name := "", owner := "Bo", age := 2,
    checkup_reason := "limping" }

/-- A newborn animal, age 0: Python truthiness makes `validate` fail. -/
def newborn : Animal :=
  { species := "Cat", name := "Kit", owner := "Bo", age := 0,
    checkup_reason := "first visit" }

/-- The animal `rex` as it looks after being persisted under id 1. -/
def rexStored : Animal := { rex with id := some 1 }

/-! ### Helper lemmas -/

/-- The function `validate` never inspects the `id` field. -/
lemma validate_set_id (a : Animal) (o : Option Nat) :
    Animal.validate { a with id := o } = a.validate := rfl

/-- Under pairwise-distinct ids, at most one row matches a given id. -/
lemma countP_le_one_of_pairwise_ne (l : List Row) (i : Nat)
    (h : l.Pairwise (fun r s => r.id ≠ s.id)) :
    l.countP (fun r => r.id == i) ≤ 1 := by
  induction l with
  | nil => simp
  | cons r rs ih =>
    rw [List.pairwise_cons] at h
    rw [List.countP_cons]
    by_cases hr : r.id = i
    · have hz : rs.countP (fun s => s.id == i) = 0 := by
        rw [List.countP_eq_zero]
        intro s hs
        simp only [beq_iff_eq]
        intro hsi
        exact h.1 s hs (hr.trans hsi.symm)
      simp [hz, hr]
    · simpa [hr] using ih h.2

/-- The operation `discharge_animal` reports success iff some row carried the id. -/
lemma discharge_fst_true_iff (db : DBState) (i : Nat) :
    (discharge_animal db i).1 = true ↔
      0 < db.rows.countP (fun r => r.id == i) := by
  simp only [discharge_animal, decide_eq_true_eq]
  rw [List.length_filter_lt_length_iff_exists, List.countP_pos_iff]
  simp [bne]

/-! ### Claims -/

/-- Claim C2: `validate()` returns true iff species, name, owner, age and
checkup_reason are all truthy (non-empty strings, non-zero age); in
particular age 0 fails validation. `validate` is a total Boolean
function, so failure is reported via the result alone, never by an
exception. -/
theorem C2_validate_iff_all_truthy (a : Animal) :
    (a.validate = true ↔
      (a.species ≠ "" ∧ a.name ≠ "" ∧ a.owner ≠ "" ∧ a.age ≠ 0 ∧
        a.checkup_reason ≠ "")) ∧
    (a.age = 0 → a.validate = false) := by
  constructor
  · simp [Animal.validate, truthyStr, truthyInt, and_assoc]
  · intro h
    simp [Animal.validate, truthyInt, h]

/-- Witness for C2: a record with age 0 fails validation. -/
theorem C2_validate_witness : newborn.validate = false :=
  (C2_validate_iff_all_truthy newborn).2 rfl

/-- Claim C3: for an invalid record, `add_animal` returns `None`, opens no
connection (hence attempts no write), and leaves the table exactly as it
was — under every fault mode, since validation runs first. -/
theorem C3_add_invalid_no_write (f : StorageFault) (db : DBState) (a : Animal)
    (h : a.validate = false) :
    add_animal db a = ((none, a), db) ∧
    add_animal_run f db a = (Except.ok (none, a), db, ⟨0, 0⟩) := by
  constructor <;> simp [add_animal, add_animal_run, h]

/-- Witness for C3: the empty-name record is rejected with the table
untouched and no connection opened. -/
theorem C3_add_invalid_witness :
    add_animal freshDB blankName = ((none, blankName), freshDB) ∧
    add_animal_run StorageFault.noFault freshDB blankName =
      (Except.ok (none, blankName), freshDB, ⟨0, 0⟩) :=
  C3_add_invalid_no_write StorageFault.noFault freshDB blankName (by decide)

/-- Claim C5: table creation is idempotent: a second `_create_table` is a
no-op, the table always EXISTS afterwards, an existing table (its rows
included) is left untouched, and the fault-free run raises nothing. -/
theorem C5_create_table_idempotent (t : Option DBState) :
    create_table (create_table t) = create_table t ∧
    (create_table t).isSome = true ∧
    (∀ db : DBState, create_table (some db) = some db) ∧
    create_table_run StorageFault.noFault t =
      (Except.ok (create_table t), ⟨1, 1⟩) := by
  cases t <;> simp [create_table, create_table_run]

/-- Claim C6: looking up an id with no matching row returns `None` without any
exception (the fault-free run yields an `ok` result); when a row does
match, the returned record is that row of the table, id included. -/
theorem C6_get_missing_is_none (db : DBState) (i : Nat) :
    ((∀ r ∈ db.rows, r.id ≠ i) → get_animal_info db i = none) ∧
    (∀ r, get_animal_info db i = some r → r ∈ db.rows ∧ r.id = i) ∧
    get_animal_info_run StorageFault.noFault db i =
      (Except.ok (get_animal_info db i), db, ⟨1, 1⟩) := by
  refine ⟨?_, ?_, rfl⟩
  · intro h
    rw [get_animal_info, List.find?_eq_none]
    intro r hr
    simpa using h r hr
  · intro r hr
    exact ⟨List.mem_of_find?_eq_some hr, by simpa using List.find?_some hr⟩

/-- Witness for C6: id 9999 on the empty table is a normal `None`. -/
theorem C6_get_missing_witness : get_animal_info freshDB 9999 = none :=
  (C6_get_missing_is_none freshDB 9999).1 (by simp [freshDB])

/-- Claim C7: the code does not keep its catch-all promise. When
`sqlite3.connect` itself raises inside `_get_connection`, the `finally`
clause evaluates `conn.close()` on the unbound local `conn`, and the
resulting `UnboundLocalError` escapes the `except sqlite3.Error`
handlers of `add_animal`, `get_animal_info` and `discharge_animal` —
an exception does propagate past the store. Faults after the
connection opened are converted to the sentinel as documented
(second conjunct). -/
theorem C7_open_fault_escapes_store :
    add_animal_run StorageFault.openFault freshDB rex =
      (Except.error PyExc.unboundLocalError, freshDB, ⟨0, 0⟩) ∧
    add_animal_run StorageFault.bodyFault freshDB rex =
      (Except.ok (none, rex), freshDB, ⟨1, 1⟩) ∧
    get_animal_info_run StorageFault.openFault freshDB 1 =
      (Except.error PyExc.unboundLocalError, freshDB, ⟨0, 0⟩) ∧
    discharge_animal_run StorageFault.openFault freshDB 1 =
      (Except.error PyExc.unboundLocalError, freshDB, ⟨0, 0⟩) := by
  have hv : rex.validate = true := by decide
  refine ⟨?_, ?_, rfl, rfl⟩ <;>
    simp [add_animal_run, hv, with_connection, catch_sqlite]

/-- Claim C1: inserting a valid, not-yet-persisted record returns a non-null
id, writes it back onto the record, and a subsequent lookup with that id
returns a record agreeing with the inserted one on species, name, owner,
age and checkup_reason, with the new id attached. -/
theorem C1_add_then_get_roundtrip (db : DBState) (a : Animal)
    (hwf : db.wf) (hv : a.validate = true) (_hid : a.id = none) :
    ∃ i a2 db2, add_animal db a = ((some i, a2), db2) ∧ a2.id = some i ∧
      ∃ r, get_animal_info db2 i = some r ∧
        r.species = a.species ∧ r.name = a.name ∧ r.owner = a.owner ∧
        r.age = a.age ∧ r.checkup_reason = a.checkup_reason ∧ r.id = i := by
  refine ⟨db.seq + 1, { a with id := some (db.seq + 1) },
    { rows := db.rows ++ [insertRow a db], seq := db.seq + 1 }, ?_, rfl, ?_⟩
  · simp [add_animal, hv, add_body]
  · refine ⟨insertRow a db, ?_, rfl, rfl, rfl, rfl, rfl, rfl⟩
    unfold get_animal_info
    rw [List.find?_append]
    have h1 : (db.rows.find? fun r => r.id == db.seq + 1) = none := by
      rw [List.find?_eq_none]
      intro r hr
      have h2 := (hwf.1 r hr).2
      simp only [beq_iff_eq]
      omega
    rw [h1, Option.none_or]
    simp [insertRow]

/-- Witness for C1: the specification's round-trip example on a fresh
table. -/
theorem C1_roundtrip_witness :
    ∃ i a2 db2, add_animal freshDB rex = ((some i, a2), db2) ∧
      a2.id = some i ∧
      ∃ r, get_animal_info db2 i = some r ∧
        r.species = rex.species ∧ r.name = rex.name ∧ r.owner = rex.owner ∧
        r.age = rex.age ∧ r.checkup_reason = rex.checkup_reason ∧ r.id = i :=
  C1_add_then_get_roundtrip freshDB rex (by simp [DBState.wf, freshDB])
    (by decide) rfl

/-- Claim C4: on a well-formed table, `discharge_animal` succeeds iff exactly
one row carried the id; the rows it keeps are exactly those with a
different id; and when no row matches, it returns `false` and leaves the
table unchanged. -/
theorem C4_discharge_true_iff_one_row (db : DBState) (i : Nat)
    (hwf : db.wf) :
    ((discharge_animal db i).1 = true ↔
      db.rows.countP (fun r => r.id == i) = 1) ∧
    (∀ r, r ∈ (discharge_animal db i).2.rows ↔ (r ∈ db.rows ∧ r.id ≠ i)) ∧
    ((∀ r ∈ db.rows, r.id ≠ i) → discharge_animal db i = (false, db)) := by
  refine ⟨?_, ?_, ?_⟩
  · rw [discharge_fst_true_iff]
    have hle := countP_le_one_of_pairwise_ne db.rows i hwf.2
    omega
  · intro r
    simp [discharge_animal, List.mem_filter, bne]
  · intro h
    have hfix : db.rows.filter (fun r => r.id != i) = db.rows :=
      List.filter_eq_self.mpr (fun r hr => by simpa [bne] using h r hr)
    simp [discharge_animal, hfix]

/-- Witness for C4: deleting id 9999 from the empty table fails and
changes nothing. -/
theorem C4_discharge_witness :
    discharge_animal freshDB 9999 = (false, freshDB) :=
  (C4_discharge_true_iff_one_row freshDB 9999
    (by simp [DBState.wf, freshDB])).2.2 (by simp [freshDB])

/-- Claim C8: connection discipline. In every fault mode, each operation's
count of opened connections equals its count of closed ones (scoped
acquisition guarantees release on success, validation failure and
storage error alike — on the open-failure path no connection ever
exists, so none can leak), each call opens at most one connection of
its own, and on the fault-free path each operation that reaches storage
opens exactly one. -/
theorem C8_scoped_connection_release (f : StorageFault) (db : DBState)
    (a : Animal) (i : Nat) (t : Option DBState) :
    ((add_animal_run f db a).2.2.opened =
      (add_animal_run f db a).2.2.closed) ∧
    ((get_animal_info_run f db i).2.2.opened =
      (get_animal_info_run f db i).2.2.closed) ∧
    ((discharge_animal_run f db i).2.2.opened =
      (discharge_animal_run f db i).2.2.closed) ∧
    ((create_table_run f t).2.opened = (create_table_run f t).2.closed) ∧
    ((add_animal_run f db a).2.2.opened ≤ 1 ∧
      (get_animal_info_run f db i).2.2.opened ≤ 1 ∧
      (discharge_animal_run f db i).2.2.opened ≤ 1 ∧
      (create_table_run f t).2.opened ≤ 1) ∧
    (f = StorageFault.noFault → a.validate = true →
      ((add_animal_run f db a).2.2.opened = 1 ∧
        (get_animal_info_run f db i).2.2.opened = 1 ∧
        (discharge_animal_run f db i).2.2.opened = 1 ∧
        (create_table_run f t).2.opened = 1)) := by
  cases f <;> by_cases hv : a.validate <;>
    simp [add_animal_run, get_animal_info_run, discharge_animal_run,
      create_table_run, with_connection, catch_sqlite, hv]

/-- Witness for C8: on the fault-free path with a valid record, each
operation opens exactly one connection. -/
theorem C8_connection_witness :
    (add_animal_run StorageFault.noFault freshDB rex).2.2.opened = 1 ∧
    (get_animal_info_run StorageFault.noFault freshDB 1).2.2.opened = 1 ∧
    (discharge_animal_run StorageFault.noFault freshDB 1).2.2.opened = 1 ∧
    (create_table_run StorageFault.noFault none).2.opened = 1 :=
  (C8_scoped_connection_release StorageFault.noFault freshDB rex 1
    none).2.2.2.2.2 rfl (by decide)

/-- One controller-driven call into the store; a successful
`add_animal` yields the id the store returned. -/
inductive OpCall
  | addOp (a : Animal)
  | getOp (i : Nat)
  | delOp (i : Nat)

/-- Apply one store call to the table, keeping the id returned by a
successful insert. -/
def applyOp (db : DBState) : OpCall → DBState × Option Nat
  | .addOp a => ((add_animal db a).2, (add_animal db a).1.1)
  | .getOp _ => (db, none)
  | .delOp i => ((discharge_animal db i).2, none)

/-- Run a sequence of store calls, collecting the ids returned by the
successful inserts, in call order. -/
def runOps : DBState → List OpCall → DBState × List Nat
  | db, [] => (db, [])
  | db, op :: rest =>
    ((runOps (applyOp db op).1 rest).1,
      (applyOp db op).2.toList ++ (runOps (applyOp db op).1 rest).2)

/-- No store call ever decreases the AUTOINCREMENT sequence. -/
lemma seq_le_applyOp (db : DBState) (op : OpCall) :
    db.seq ≤ (applyOp db op).1.seq := by
  cases op with
  | addOp a =>
    by_cases hv : a.validate <;>
      simp [applyOp, add_animal, hv, add_body]
  | getOp j => simp [applyOp]
  | delOp j => simp [applyOp, discharge_animal]

/-- An id returned by a call never exceeds the sequence value after it. -/
lemma returned_id_le_seq (db : DBState) (op : OpCall) (x : Nat)
    (h : (applyOp db op).2 = some x) : x ≤ (applyOp db op).1.seq := by
  cases op with
  | addOp a =>
    by_cases hv : a.validate <;>
      simp [applyOp, add_animal, hv, add_body] at h ⊢
    omega
  | getOp j => simp [applyOp] at h
  | delOp j => simp [applyOp] at h

/-- Every id returned during a run exceeds the starting sequence value. -/
lemma ids_gt_seq (ops : List OpCall) (db : DBState) :
    ∀ i ∈ (runOps db ops).2, db.seq < i := by
  induction ops generalizing db with
  | nil => simp [runOps]
  | cons op rest ih =>
    intro i hi
    simp only [runOps, List.mem_append] at hi
    rcases hi with h | h
    · cases op with
      | addOp a =>
        by_cases hv : a.validate <;>
          simp [applyOp, add_animal, hv, add_body] at h
        omega
      | getOp j => simp [applyOp] at h
      | delOp j => simp [applyOp] at h
    · exact lt_of_le_of_lt (seq_le_applyOp db op) (ih (applyOp db op).1 i h)

/-- Claim C9: over any sequence of store calls, the ids returned by the
successful inserts are strictly increasing in call order — hence each
one is distinct from and greater than every previously returned id. -/
theorem C9_ids_strictly_increasing (db : DBState) (ops : List OpCall) :
    ((runOps db ops).2).Pairwise (· < ·) ∧
    ((runOps db ops).2).Pairwise (· ≠ ·) := by
  have hlt : ((runOps db ops).2).Pairwise (· < ·) := by
    induction ops generalizing db with
    | nil => simp [runOps]
    | cons op rest ih =>
      simp only [runOps]
      rw [List.pairwise_append]
      refine ⟨?_, ih (applyOp db op).1, ?_⟩
      · cases h : (applyOp db op).2 <;> simp
      · intro x hx y hy
        have hx2 : (applyOp db op).2 = some x := by
          cases h : (applyOp db op).2 <;> simp [h] at hx
          simp [hx]
        exact lt_of_le_of_lt (returned_id_le_seq db op x hx2)
          (ids_gt_seq rest (applyOp db op).1 y hy)
  exact ⟨hlt, hlt.imp (fun h => Nat.ne_of_lt h)⟩

/-- Claim C10: `add_animal` never reads an existing id: its result is the same
as for the id-less record, it returns the fresh id `seq + 1`, overwrites
the record's id field with it, appends one new row carrying the fresh id,
and keeps every previously inserted row intact. -/
theorem C10_add_ignores_existing_id (db : DBState) (a : Animal) (j : Nat)
    (hv : a.validate = true) (_hid : a.id = some j) :
    add_animal db a = add_animal db { a with id := none } ∧
    (add_animal db a).1.1 = some (db.seq + 1) ∧
    (add_animal db a).1.2 = { a with id := some (db.seq + 1) } ∧
    (add_animal db a).2.rows = db.rows ++ [insertRow a db] ∧
    (insertRow a db).id = db.seq + 1 ∧
    (∀ r ∈ db.rows, r ∈ (add_animal db a).2.rows) := by
  have hv2 : Animal.validate { a with id := none } = true := hv
  refine ⟨?_, ?_, ?_, ?_, rfl, ?_⟩
  · simp only [add_animal, hv, hv2, if_true]
    rfl
  · simp [add_animal, hv, add_body]
  · simp [add_animal, hv, add_body]
  · simp [add_animal, hv, add_body]
  · intro r hr
    simp [add_animal, hv, add_body, hr]

/-- Witness for C10: re-adding the already-persisted `rex` duplicates
its data under a fresh id. -/
theorem C10_readd_witness :
    add_animal freshDB rexStored =
      add_animal freshDB { rexStored with id := none } ∧
    (add_animal freshDB rexStored).1.1 = some (freshDB.seq + 1) ∧
    (add_animal freshDB rexStored).1.2 =
      { rexStored with id := some (freshDB.seq + 1) } ∧
    (add_animal freshDB rexStored).2.rows =
      freshDB.rows ++ [insertRow rexStored freshDB] ∧
    (insertRow rexStored freshDB).id = freshDB.seq + 1 ∧
    (∀ r ∈ freshDB.rows, r ∈ (add_animal freshDB rexStored).2.rows) :=
  C10_add_ignores_existing_id freshDB rexStored 1 (by decide) rfl

end VetCheckin
